import Mathlib

/-!
Shallow embedding of the ghb0t merge-cleanup bot (main.go) and proofs of the
specification's claims about it.

Modelling conventions:
* Go pointer fields (`*string`, `*github.Repository`, ...) become `Option`
  fields; dereferencing a `nil` pointer is a Go panic, modelled by an explicit
  `panic` outcome constructor.
* `time.Time` becomes `Nat`; the zero value (`IsZero`) is `0`.
* Go errors are strings; `error == nil` is `Option.none`.
* The GitHub client is a record of pure functions (the gateway); each call the
  code makes is recorded in the result so theorems can speak about the calls
  issued.
* The recursion in `getNotifications` is given explicit fuel; running out of
  fuel is the distinct outcome `diverge` (the Go code would keep recursing).
-/

namespace Ghb0t

/-- `github.User`: only the `Login` field is used by the program. -/
structure User where
  login : Option String
deriving DecidableEq, Repr

/-- `github.Repository`: the fields the program dereferences. -/
structure Repository where
  owner : Option User
  name : Option String
  fullName : Option String
deriving DecidableEq, Repr

/-- `github.PullRequestBranch` (`pr.Head`): branch name and owning repository. -/
structure PullRequestBranch where
  ref : Option String
  repo : Option Repository
deriving DecidableEq, Repr

/-- `github.PullRequest`: the fields the program dereferences. -/
structure PullRequest where
  state : Option String
  merged : Option Bool
  head : Option PullRequestBranch
  number : Option Int
deriving DecidableEq, Repr

/-- One `client.Git.DeleteRef(owner, repo, ref)` call, by its three arguments. -/
structure DeleteCall where
  owner : String
  repo : String
  ref : String
deriving DecidableEq, Repr

/-- Result of a Go function returning `error`: either a nil-pointer panic, or a
normal return carrying `some errorString` / `none` (nil error). -/
inductive GoReturn where
  | panic : GoReturn
  | value : Option String → GoReturn
deriving DecidableEq, Repr

/-- The deletion gateway `client.Git.DeleteRef`: arguments owner, repo, ref;
returns `none` on success, `some e` when the API returned error `e`. -/
def DeleteGateway : Type := String → String → String → Option String

/-- Does the character list `sub` occur as a contiguous sublist of `s`?
Scans left to right, checking at each position whether `sub` is a prefix. -/
def containsSubList (sub : List Char) : List Char → Bool
  | [] => sub.isEmpty
  | c :: rest => ((c :: rest).take sub.length == sub) || containsSubList sub rest

/-- `strings.Contains(s, sub)`: substring occurrence. -/
def goContains (s sub : String) : Bool :=
  containsSubList sub.data s.data

/-- Left-to-right, non-overlapping replacement of `old` by `new` in a char
list, as `strings.Replace(s, old, new, -1)` performs it for nonempty `old`.
`fuel` is consumed once per examined position; callers pass the list length,
which suffices because each step either drops `old.length ≥ 1` characters or
advances by one. -/
def replaceListAux (old new : List Char) : Nat → List Char → List Char
  | _, [] => []
  | 0, s => s
  | fuel + 1, c :: rest =>
    if (c :: rest).take old.length == old then
      new ++ replaceListAux old new fuel ((c :: rest).drop old.length)
    else
      c :: replaceListAux old new fuel rest

/-- `strings.Replace(s, old, new, -1)` for nonempty `old`: replace every
non-overlapping occurrence of `old` in `s` by `new`, left to right. -/
def goReplace (s old new : String) : String :=
  ⟨replaceListAux old.data new.data s.data.length s.data⟩

/-- `closePR(client, username, pr)` from main.go, lines 160-183.  Returns the
list of `DeleteRef` calls issued together with the function's outcome.
Mirrors the source exactly: `*pr.State == "closed" && *pr.Merged` with Go
short-circuit evaluation, then `branch := *pr.Head.Ref` (dereferenced before
the `pr.Head.Repo == nil` check), the nil checks on `Head.Repo` and
`Head.Repo.Owner`, the guard `owner == username && branch != "master"`, the
call `DeleteRef(username, *pr.Head.Repo.Name,
strings.Replace("heads/"+*pr.Head.Ref, "#", "%23", -1))`, and the tolerance
of errors whose text contains " 422 ". -/
def closePR (del : DeleteGateway) (username : String) (pr : PullRequest) :
    List DeleteCall × GoReturn :=
  match pr.state with
  | none => ([], .panic)
  | some st =>
    if st = "closed" then
      match pr.merged with
      | none => ([], .panic)
      | some merged =>
        if merged then
          match pr.head with
          | none => ([], .panic)
          | some hd =>
            match hd.ref with
            | none => ([], .panic)
            | some branch =>
              match hd.repo with
              | none => ([], .value none)
              | some rp =>
                match rp.owner with
                | none => ([], .value none)
                | some ow =>
                  match ow.login with
                  | none => ([], .panic)
                  | some owner =>
                    if owner = username ∧ branch ≠ "master" then
                      match rp.name with
                      | none => ([], .panic)
                      | some rname =>
                        let r := goReplace ("heads/" ++ branch) "#" "%23"
                        let call : DeleteCall := ⟨username, rname, r⟩
                        match del username rname r with
                        | some e =>
                          if goContains e " 422 " then ([call], .value none)
                          else ([call], .value (some e))
                        | none => ([call], .value none)
                    else ([], .value none)
        else ([], .value none)
    else ([], .value none)

/-- `github.NotificationSubject`: the `Type` and `URL` fields. -/
structure NotificationSubject where
  sType : Option String
  url : Option String
deriving DecidableEq, Repr

/-- `github.Notification`: the fields the program dereferences. -/
structure Notification where
  subject : Option NotificationSubject
  repository : Option Repository
deriving DecidableEq, Repr

/-- Pagination data of a go-github response: `resp.LastPage`, `resp.NextPage`
(0 when there is no such page). -/
structure ListResponse where
  lastPage : Nat
  nextPage : Nat
deriving DecidableEq, Repr

/-- The GitHub client operations used by the polling path.
`listNotifications since page perPage` models
`client.Activity.ListNotifications` (the `All: true` flag is part of the
fixed request shape and is not a parameter); `getPullRequest` models
`client.PullRequests.Get`. -/
structure PollGateway where
  listNotifications : Nat → Nat → Nat → Except String (List Notification × ListResponse)
  getPullRequest : String → String → Int → Except String PullRequest
  deleteRef : DeleteGateway

/-- Result of running a modelled Go computation: a nil-pointer panic, a
failure to terminate within the supplied fuel, or a normal result. -/
inductive GoRes (α : Type) where
  | panic : GoRes α
  | diverge : GoRes α
  | ok : α → GoRes α
deriving DecidableEq, Repr

/-- Decimal value of a digit list, `none` on the first non-digit. -/
def digitsValAux (acc : Nat) : List Char → Option Nat
  | [] => some acc
  | c :: rest =>
    if c.isDigit then digitsValAux (acc * 10 + (c.toNat - 48)) rest else none

/-- `strconv.Atoi`: optional single sign, then one or more decimal digits,
value within the 64-bit `int` range. -/
def goAtoi (s : String) : Except String Int :=
  match s.data with
  | '+' :: rest => goAtoiCore s false rest
  | '-' :: rest => goAtoiCore s true rest
  | _ => goAtoiCore s false s.data
where
  goAtoiCore (s : String) (neg : Bool) (ds : List Char) : Except String Int :=
    if ds.isEmpty then
      .error ("strconv.Atoi: parsing " ++ s ++ ": invalid syntax")
    else
      match digitsValAux 0 ds with
      | none => .error ("strconv.Atoi: parsing " ++ s ++ ": invalid syntax")
      | some n =>
        let v : Int := if neg then -(n : Int) else (n : Int)
        if v < -(2 ^ 63) ∨ (2 ^ 63 - 1) < v then
          .error ("strconv.Atoi: parsing " ++ s ++ ": value out of range")
        else .ok v

/-- Split a char list at every non-overlapping occurrence of `sep`, left to
right, as `strings.Split` does for nonempty `sep`.  `fuel` is consumed once
per examined position; the list length suffices. -/
def splitListAux (sep : List Char) : Nat → List Char → List (List Char)
  | _, [] => [[]]
  | 0, s => [s]
  | fuel + 1, c :: rest =>
    if (c :: rest).take sep.length == sep then
      [] :: splitListAux sep fuel ((c :: rest).drop sep.length)
    else
      match splitListAux sep fuel rest with
      | [] => [[c]]
      | p :: ps => (c :: p) :: ps

/-- `strings.Split(s, sep)` for nonempty `sep`. -/
def goSplit (s sep : String) : List String :=
  (splitListAux sep.data s.data.length s.data).map (fun cs => ⟨cs⟩)

/-- `handleNotification(client, notification, username)` from main.go, lines
231-249.  For a "PullRequest" subject: split the subject URL on "/", parse
the last segment with `strconv.Atoi` (returning the parse error on failure),
fetch the pull request with
`client.PullRequests.Get(*n.Repository.Owner.Login, *n.Repository.Name, id)`
(returning the fetch error on failure), and run `closePR` on it.  Returns
the list of resolved-and-evaluated pull-request ids, the deletion calls
issued, and the function's error result. -/
def handleNotification (g : PollGateway) (username : String) (n : Notification) :
    GoRes (List Int × List DeleteCall × Option String) :=
  match n.subject with
  | none => .panic
  | some subj =>
    match subj.sType with
    | none => .panic
    | some t =>
      if t = "PullRequest" then
        match subj.url with
        | none => .panic
        | some url =>
          let parts := goSplit url "/"
          let last := parts.getLastD ""
          match goAtoi last with
          | .error e => .ok ([], [], some e)
          | .ok id =>
            match n.repository with
            | none => .panic
            | some rp =>
              match rp.owner with
              | none => .panic
              | some ow =>
                match ow.login with
                | none => .panic
                | some ologin =>
                  match rp.name with
                  | none => .panic
                  | some rname =>
                    match g.getPullRequest ologin rname id with
                    | .error e => .ok ([], [], some e)
                    | .ok pr =>
                      match closePR g.deleteRef username pr with
                      | (_, .panic) => .panic
                      | (calls, .value r) => .ok ([id], calls, r)
      else .ok ([], [], none)

/-- The `for _, notification := range notifications` loop body of
`getNotifications`: run `handleNotification` on each item in order, stopping
at the first non-nil error (which `getNotifications` returns immediately). -/
def handleAll (g : PollGateway) (username : String) :
    List Notification → GoRes (List Int × List DeleteCall × Option String)
  | [] => .ok ([], [], none)
  | n :: rest =>
    match handleNotification g username n with
    | .panic => .panic
    | .diverge => .diverge
    | .ok (ev, dels, some e) => .ok (ev, dels, some e)
    | .ok (ev, dels, none) =>
      match handleAll g username rest with
      | .panic => .panic
      | .diverge => .diverge
      | .ok (ev2, dels2, r) => .ok (ev ++ ev2, dels ++ dels2, r)

/-- Observable outcome of one `getNotifications` run: the value of the
`lastChecked` global afterwards, the `(since, page)` argument pairs of the
`ListNotifications` calls made, the pull-request ids resolved and evaluated,
the deletion calls issued, and the returned error. -/
structure PollResult where
  lastChecked : Nat
  fetches : List (Nat × Nat)
  evaluated : List Int
  deletes : List DeleteCall
  error : Option String
deriving DecidableEq, Repr

/-- `getNotifications(client, username, page, perPage)` from main.go, lines
197-229, with the `lastChecked` global threaded explicitly and `now`
standing for `time.Now()`.  Mirrors the source order: the options struct is
built with `Since: lastChecked` BEFORE the `if lastChecked.IsZero()` update,
then `ListNotifications` is called; each notification is handled in order
with the first error returned immediately; the run stops when
`page == resp.LastPage || resp.NextPage == 0`, and otherwise recurses on
`resp.NextPage`.  `fuel` bounds the recursion depth. -/
def getNotifications (g : PollGateway) (now : Nat) (username : String) :
    Nat → Nat → Nat → Nat → GoRes PollResult
  | 0, _, _, _ => .diverge
  | fuel + 1, page, perPage, lastChecked =>
    let optSince := lastChecked
    let lastChecked1 := if lastChecked = 0 then now else lastChecked
    match g.listNotifications optSince page perPage with
    | .error e => .ok ⟨lastChecked1, [(optSince, page)], [], [], some e⟩
    | .ok (notifications, resp) =>
      match handleAll g username notifications with
      | .panic => .panic
      | .diverge => .diverge
      | .ok (ev, dels, some e) =>
        .ok ⟨lastChecked1, [(optSince, page)], ev, dels, some e⟩
      | .ok (ev, dels, none) =>
        if page = resp.lastPage ∨ resp.nextPage = 0 then
          .ok ⟨lastChecked1, [(optSince, page)], ev, dels, none⟩
        else
          match getNotifications g now username fuel resp.nextPage perPage lastChecked1 with
          | .panic => .panic
          | .diverge => .diverge
          | .ok r =>
            .ok ⟨r.lastChecked, (optSince, page) :: r.fetches,
                 ev ++ r.evaluated, dels ++ r.deletes, r.error⟩

/-- Outcome of one tick of `notifier`: the `lastChecked` value afterwards and
the message passed to `logrus.Warn` (if any). -/
structure TickResult where
  lastChecked : Nat
  warned : Option String
deriving DecidableEq, Repr

/-- One iteration of the `for range ticker.C` loop in `notifier` (main.go,
lines 185-194): call `getNotifications` with page 1 and perPage 20; a
non-nil error is logged with `logrus.Warn` and the loop goes on — it is not
fatal. -/
def notifierTick (g : PollGateway) (now : Nat) (username : String)
    (fuel lastChecked : Nat) : GoRes TickResult :=
  match getNotifications g now username fuel 1 20 lastChecked with
  | .panic => .panic
  | .diverge => .diverge
  | .ok r => .ok ⟨r.lastChecked, r.error⟩

/-- The webhook `event` struct of main.go (lines 42-47). -/
structure Event where
  pullRequest : Option PullRequest
  repository : Option Repository
  number : Int
  action : String
deriving DecidableEq, Repr

/-- The log statement the webhook handler ends with on a non-fatal path. -/
inductive WebhookLog where
  | closeFailed : Int → String → String → WebhookLog
  | closedOk : WebhookLog
  | skipNotClosed : Int → String → String → WebhookLog
  | skipNonPR : WebhookLog
deriving DecidableEq, Repr

/-- Outcome of one webhook request: `fatal` is `logrus.Fatal` (process
exit), `panic` a nil dereference, `ok` a normal return with its log. -/
inductive HandlerOut where
  | fatal : HandlerOut
  | panic : HandlerOut
  | ok : WebhookLog → HandlerOut
deriving DecidableEq, Repr

/-- The handler returned by `buildHandler(client, username)` (main.go, lines
128-153) applied to one request.  `body` is the result of
`ioutil.ReadAll(req.Body)`; `decode` stands for `json.Unmarshal` into the
`event` struct.  A read or decode failure hits `logrus.Fatal`.  A decoded
event with a pull request and action "closed" is passed to `closePR`; a
`closePR` error is logged via `logrus.Errorf`, whose arguments dereference
`*evt.PullRequest.Number` and `*evt.Repository.FullName` (panic if nil); a
non-"closed" action is skipped via `logrus.Infof` with the same
dereferences; an event without a pull request is skipped.  Returns the
deletion calls issued and the outcome. -/
def buildHandler (decode : String → Except String Event) (del : DeleteGateway)
    (username : String) (body : Except String String) :
    List DeleteCall × HandlerOut :=
  match body with
  | .error _ => ([], .fatal)
  | .ok b =>
    match decode b with
    | .error _ => ([], .fatal)
    | .ok evt =>
      match evt.pullRequest with
      | some pr =>
        if evt.action = "closed" then
          match closePR del username pr with
          | (calls, .panic) => (calls, .panic)
          | (calls, .value none) => (calls, .ok .closedOk)
          | (calls, .value (some e)) =>
            match pr.number with
            | none => (calls, .panic)
            | some n =>
              match evt.repository with
              | none => (calls, .panic)
              | some rp =>
                match rp.fullName with
                | none => (calls, .panic)
                | some fn => (calls, .ok (.closeFailed n fn e))
        else
          match pr.number with
          | none => ([], .panic)
          | some n =>
            match evt.repository with
            | none => ([], .panic)
            | some rp =>
              match rp.fullName with
              | none => ([], .panic)
              | some fn => ([], .ok (.skipNotClosed n fn evt.action))
      | none => ([], .ok .skipNonPR)

/-- A synthetic notification feed of `numPages` pages: page `p` (for
`1 ≤ p ≤ numPages`) holds the single notification `notifAt p`, reports
`LastPage = numPages`, and points to `p + 1` as the next page except on the
last page, which reports `NextPage = 0`. -/
def feedGateway (numPages : Nat) (notifAt : Nat → Notification)
    (getPR : String → String → Int → Except String PullRequest)
    (del : DeleteGateway) : PollGateway where
  listNotifications := fun _ page _ =>
    if 1 ≤ page ∧ page ≤ numPages then
      .ok ([notifAt page], ⟨numPages, if page < numPages then page + 1 else 0⟩)
    else .error "page out of range"
  getPullRequest := getPR
  deleteRef := del

/-- C1 (amended): for every pull request with state "closed", merged, head
repository present and owned by the bot login, and head branch different from
"master", `closePR` issues exactly one branch-deletion call, with owner the
bot login, repository the head repository's name, and ref `"heads/" ++ branch`
with every "#" replaced by "%23" (the `strings.Replace` in the source). -/
theorem closePR_deletes_once (del : DeleteGateway) (username branch rname : String)
    (pr : PullRequest) (hd : PullRequestBranch) (rp : Repository) (ow : User)
    (hstate : pr.state = some "closed") (hmerged : pr.merged = some true)
    (hhead : pr.head = some hd) (href : hd.ref = some branch)
    (hrepo : hd.repo = some rp) (howner : rp.owner = some ow)
    (hlogin : ow.login = some username) (hname : rp.name = some rname)
    (hbranch : branch ≠ "master") :
    (closePR del username pr).1 =
      [⟨username, rname, goReplace ("heads/" ++ branch) "#" "%23"⟩] := by
  cases hdel : del username rname (goReplace ("heads/" ++ branch) "#" "%23") with
  | none =>
    simp [closePR, hstate, hmerged, hhead, href, hrepo, howner, hlogin, hname,
      hbranch, hdel]
  | some e =>
    by_cases h422 : goContains e " 422 " <;>
      simp [closePR, hstate, hmerged, hhead, href, hrepo, howner, hlogin, hname,
        hbranch, hdel, h422]

/-- Witness for `closePR_deletes_once` at a concrete merged PR. -/
theorem closePR_deletes_once_witness :
    (closePR (fun _ _ _ => none) "bot"
      ⟨some "closed", some true,
       some ⟨some "feature-x", some ⟨some ⟨some "bot"⟩, some "repo1", none⟩⟩,
       some 42⟩).1 = [⟨"bot", "repo1", "heads/feature-x"⟩] := by
  have h := closePR_deletes_once (fun _ _ _ => none) "bot" "feature-x" "repo1"
    ⟨some "closed", some true,
     some ⟨some "feature-x", some ⟨some ⟨some "bot"⟩, some "repo1", none⟩⟩,
     some 42⟩
    ⟨some "feature-x", some ⟨some ⟨some "bot"⟩, some "repo1", none⟩⟩
    ⟨some ⟨some "bot"⟩, some "repo1", none⟩ ⟨some "bot"⟩
    rfl rfl rfl rfl rfl rfl rfl rfl (by decide)
  exact h.trans (by decide)

/-- C1 counterexample: for head branch "a#b" the single deletion call carries
ref "heads/a%23b", not `"heads/" ++ "a#b"` as the claim states. -/
theorem closePR_ref_counterexample :
    (closePR (fun _ _ _ => none) "bot"
      ⟨some "closed", some true,
       some ⟨some "a#b", some ⟨some ⟨some "bot"⟩, some "repo1", none⟩⟩,
       some 7⟩).1 = [⟨"bot", "repo1", "heads/a%23b"⟩] ∧
    "heads/a%23b" ≠ "heads/" ++ "a#b" := by
  constructor
  · rfl
  · decide

/-- C2: `closePR` never issues a deletion call for a pull request whose head
branch name is "master", whatever the rest of the pull request looks like. -/
theorem closePR_never_deletes_master (del : DeleteGateway) (username : String)
    (pr : PullRequest) (hd : PullRequestBranch)
    (hhead : pr.head = some hd) (href : hd.ref = some "master") :
    (closePR del username pr).1 = [] := by
  unfold closePR
  repeat' split
  all_goals simp_all

/-- Witness for `closePR_never_deletes_master` at a merged self-owned PR. -/
theorem closePR_never_deletes_master_witness :
    (closePR (fun _ _ _ => none) "bot"
      ⟨some "closed", some true,
       some ⟨some "master", some ⟨some ⟨some "bot"⟩, some "repo1", none⟩⟩,
       some 42⟩).1 = [] :=
  closePR_never_deletes_master (fun _ _ _ => none) "bot"
    ⟨some "closed", some true,
     some ⟨some "master", some ⟨some ⟨some "bot"⟩, some "repo1", none⟩⟩,
     some 42⟩
    ⟨some "master", some ⟨some ⟨some "bot"⟩, some "repo1", none⟩⟩ rfl rfl

/-- C3: `closePR` never issues a deletion call when the head repository's
owner login differs from the bot's login, even for closed, merged PRs. -/
theorem closePR_never_deletes_foreign (del : DeleteGateway) (username : String)
    (pr : PullRequest) (hd : PullRequestBranch) (rp : Repository) (ow : User)
    (l : String) (hhead : pr.head = some hd) (hrepo : hd.repo = some rp)
    (howner : rp.owner = some ow) (hlogin : ow.login = some l)
    (hne : l ≠ username) :
    (closePR del username pr).1 = [] := by
  unfold closePR
  repeat' split
  all_goals simp_all

/-- Witness for `closePR_never_deletes_foreign` at a closed merged PR whose
head repository belongs to "other". -/
theorem closePR_never_deletes_foreign_witness :
    (closePR (fun _ _ _ => none) "bot"
      ⟨some "closed", some true,
       some ⟨some "feature-x", some ⟨some ⟨some "other"⟩, some "repo1", none⟩⟩,
       some 42⟩).1 = [] :=
  closePR_never_deletes_foreign (fun _ _ _ => none) "bot"
    ⟨some "closed", some true,
     some ⟨some "feature-x", some ⟨some ⟨some "other"⟩, some "repo1", none⟩⟩,
     some 42⟩
    ⟨some "feature-x", some ⟨some ⟨some "other"⟩, some "repo1", none⟩⟩
    ⟨some ⟨some "other"⟩, some "repo1", none⟩ ⟨some "other"⟩ "other"
    rfl rfl rfl rfl (by decide)

/-- C4: `closePR` issues no deletion call and returns nil (skip, success) when
the state is present but not "closed", or the PR is closed but not merged, or
the PR is closed and merged with head branch present but head repository
absent. -/
theorem closePR_skips_ineligible (del : DeleteGateway) (username : String)
    (pr : PullRequest)
    (H : (∃ s, pr.state = some s ∧ s ≠ "closed") ∨
         (pr.state = some "closed" ∧ pr.merged = some false) ∨
         (pr.state = some "closed" ∧ pr.merged = some true ∧
          ∃ hd, pr.head = some hd ∧ (∃ b, hd.ref = some b) ∧ hd.repo = none)) :
    closePR del username pr = ([], .value none) := by
  rcases H with ⟨s, hs, hne⟩ | ⟨hs, hm⟩ | ⟨hs, hm, hd, hh, ⟨b, hb⟩, hr⟩
  · simp [closePR, hs, hne]
  · simp [closePR, hs, hm]
  · simp [closePR, hs, hm, hh, hb, hr]

/-- Witness for `closePR_skips_ineligible` at a closed but unmerged PR. -/
theorem closePR_skips_ineligible_witness :
    closePR (fun _ _ _ => none) "bot"
      ⟨some "closed", some false,
       some ⟨some "feature-x", some ⟨some ⟨some "bot"⟩, some "repo1", none⟩⟩,
       some 42⟩ = ([], .value none) :=
  closePR_skips_ineligible (fun _ _ _ => none) "bot"
    ⟨some "closed", some false,
     some ⟨some "feature-x", some ⟨some ⟨some "bot"⟩, some "repo1", none⟩⟩,
     some 42⟩
    (Or.inr (Or.inl ⟨rfl, rfl⟩))

/-- C5: for an eligible pull request, a successful deletion returns nil; a
deletion error whose text contains " 422 " (branch does not exist) is
swallowed and `closePR` returns nil; any other deletion error is returned to
the caller.  In particular evaluating the same pull request twice, the first
time with the deletion succeeding and the second time with the gateway
reporting the 422 "ref does not exist" error, yields nil (success) both
times. -/
theorem closePR_notfound_tolerated (username branch rname : String)
    (pr : PullRequest) (hd : PullRequestBranch) (rp : Repository) (ow : User)
    (hstate : pr.state = some "closed") (hmerged : pr.merged = some true)
    (hhead : pr.head = some hd) (href : hd.ref = some branch)
    (hrepo : hd.repo = some rp) (howner : rp.owner = some ow)
    (hlogin : ow.login = some username) (hname : rp.name = some rname)
    (hbranch : branch ≠ "master") :
    closePR (fun _ _ _ => none) username pr =
      ([⟨username, rname, goReplace ("heads/" ++ branch) "#" "%23"⟩], .value none) ∧
    (∀ e, goContains e " 422 " = true →
      closePR (fun _ _ _ => some e) username pr =
        ([⟨username, rname, goReplace ("heads/" ++ branch) "#" "%23"⟩], .value none)) ∧
    (∀ e, goContains e " 422 " = false →
      closePR (fun _ _ _ => some e) username pr =
        ([⟨username, rname, goReplace ("heads/" ++ branch) "#" "%23"⟩],
         .value (some e))) := by
  refine ⟨?_, fun e h422 => ?_, fun e h422 => ?_⟩
  · simp [closePR, hstate, hmerged, hhead, href, hrepo, howner, hlogin, hname,
      hbranch]
  · simp [closePR, hstate, hmerged, hhead, href, hrepo, howner, hlogin, hname,
      hbranch, h422]
  · simp [closePR, hstate, hmerged, hhead, href, hrepo, howner, hlogin, hname,
      hbranch, h422]

/-- Witness for `closePR_notfound_tolerated`: the concrete eligible PR of the
spec scenario, with the go-github message for a 422 response. -/
theorem closePR_notfound_tolerated_witness :
    closePR (fun _ _ _ => none) "bot"
      ⟨some "closed", some true,
       some ⟨some "feature-x", some ⟨some ⟨some "bot"⟩, some "repo1", none⟩⟩,
       some 42⟩ = ([⟨"bot", "repo1", "heads/feature-x"⟩], .value none) ∧
    closePR (fun _ _ _ => some "DELETE: 422 Reference does not exist") "bot"
      ⟨some "closed", some true,
       some ⟨some "feature-x", some ⟨some ⟨some "bot"⟩, some "repo1", none⟩⟩,
       some 42⟩ = ([⟨"bot", "repo1", "heads/feature-x"⟩], .value none) ∧
    closePR (fun _ _ _ => some "DELETE: 403 Forbidden") "bot"
      ⟨some "closed", some true,
       some ⟨some "feature-x", some ⟨some ⟨some "bot"⟩, some "repo1", none⟩⟩,
       some 42⟩ = ([⟨"bot", "repo1", "heads/feature-x"⟩],
                   .value (some "DELETE: 403 Forbidden")) := by
  have h := closePR_notfound_tolerated "bot" "feature-x" "repo1"
    ⟨some "closed", some true,
     some ⟨some "feature-x", some ⟨some ⟨some "bot"⟩, some "repo1", none⟩⟩,
     some 42⟩
    ⟨some "feature-x", some ⟨some ⟨some "bot"⟩, some "repo1", none⟩⟩
    ⟨some ⟨some "bot"⟩, some "repo1", none⟩ ⟨some "bot"⟩
    rfl rfl rfl rfl rfl rfl rfl rfl (by decide)
  refine ⟨h.1.trans (by decide), ?_, ?_⟩
  · exact (h.2.1 "DELETE: 422 Reference does not exist" (by decide)).trans (by decide)
  · exact (h.2.2 "DELETE: 403 Forbidden" (by decide)).trans (by decide)

/-- C10: once a pull request passes the closed-and-merged test, `closePR`
dereferences `pr.Head.Ref` before the `pr.Head.Repo == nil` check: it panics
whenever the head or its ref is absent, even though the head repository is
absent too; under the precondition that head and head.ref are present it
never reaches that nil dereference, returning nil even when the head
repository is absent. -/
theorem closePR_reads_ref_before_repo_check (del : DeleteGateway)
    (username : String) (pr : PullRequest)
    (hstate : pr.state = some "closed") (hmerged : pr.merged = some true) :
    ((pr.head = none ∨ ∃ hd, pr.head = some hd ∧ hd.ref = none) →
      closePR del username pr = ([], .panic)) ∧
    (∀ hd b, pr.head = some hd → hd.ref = some b → hd.repo = none →
      closePR del username pr = ([], .value none)) := by
  constructor
  · rintro (hh | ⟨hd, hh, hr⟩)
    · simp [closePR, hstate, hmerged, hh]
    · simp [closePR, hstate, hmerged, hh, hr]
  · intro hd b hh hr hrepo
    simp [closePR, hstate, hmerged, hh, hr, hrepo]

/-- Witness for `closePR_reads_ref_before_repo_check`: a closed merged PR
whose head has no ref panics; one with a ref but no head repository skips. -/
theorem closePR_reads_ref_before_repo_check_witness :
    closePR (fun _ _ _ => none) "bot"
      ⟨some "closed", some true, some ⟨none, none⟩, some 5⟩ = ([], .panic) ∧
    closePR (fun _ _ _ => none) "bot"
      ⟨some "closed", some true, some ⟨some "feature-x", none⟩, some 5⟩ =
      ([], .value none) := by
  have h1 := closePR_reads_ref_before_repo_check (fun _ _ _ => none) "bot"
    ⟨some "closed", some true, some ⟨none, none⟩, some 5⟩ rfl rfl
  have h2 := closePR_reads_ref_before_repo_check (fun _ _ _ => none) "bot"
    ⟨some "closed", some true, some ⟨some "feature-x", none⟩, some 5⟩ rfl rfl
  exact ⟨h1.1 (Or.inr ⟨⟨none, none⟩, rfl, rfl⟩),
         h2.2 ⟨some "feature-x", none⟩ "feature-x" rfl rfl rfl⟩

/-- Helper: any successful `getNotifications` run updates `lastChecked` to
`now` exactly when it started at zero, and its first `ListNotifications`
call passes the INCOMING `lastChecked` as `since` (the options struct is
built before the `IsZero` update). -/
theorem getNotifications_lastChecked_fetch (g : PollGateway) (now : Nat)
    (username : String) :
    ∀ fuel page perPage lc r,
      getNotifications g now username fuel page perPage lc = .ok r →
      r.lastChecked = (if lc = 0 then now else lc) ∧
      r.fetches.head? = some (lc, page) := by
  intro fuel
  induction fuel with
  | zero =>
    intro page perPage lc r h
    simp [getNotifications] at h
  | succ fuel ih =>
    intro page perPage lc r h
    simp only [getNotifications] at h
    split at h
    · cases h; exact ⟨rfl, rfl⟩
    · split at h
      · simp at h
      · simp at h
      · cases h; exact ⟨rfl, rfl⟩
      · split at h
        · cases h; exact ⟨rfl, rfl⟩
        · split at h
          · simp at h
          · simp at h
          · rename_i r' hrec
            cases h
            have hih := ih _ _ _ _ hrec
            refine ⟨?_, rfl⟩
            by_cases hlc : lc = 0 <;> by_cases hnow : now = 0 <;>
              simp_all

/-- C6 counterexample: with the clock at 100 and an empty single-page feed,
the first-ever run (watermark 0) issues its fetch with since = 0, not the
startup time 100, although `lastChecked` ends up 100. -/
theorem getNotifications_first_since_counterexample :
    getNotifications
      ⟨fun _ _ _ => .ok ([], ⟨1, 0⟩), fun _ _ _ => .error "absent",
       fun _ _ _ => none⟩
      100 "bot" 5 1 20 0 = .ok ⟨100, [(0, 1)], [], [], none⟩ ∧
    (0 : Nat) ≠ 100 :=
  ⟨rfl, by decide⟩

/-- C6 (amended): on the first-ever run (watermark zero), `lastChecked` is
set to the current time before the fetch is performed, but the request
options were already built with the prior value, so the first fetch's since
parameter is the zero time — the first run queries all history — while the
watermark afterwards equals the startup time. -/
theorem getNotifications_first_run (g : PollGateway) (now : Nat)
    (username : String) (fuel page perPage : Nat) (r : PollResult)
    (h : getNotifications g now username fuel page perPage 0 = .ok r) :
    r.fetches.head? = some (0, page) ∧ r.lastChecked = now := by
  have hh := getNotifications_lastChecked_fetch g now username fuel page perPage 0 r h
  exact ⟨hh.2, by simpa using hh.1⟩

/-- Witness for `getNotifications_first_run` on a concrete one-page feed. -/
theorem getNotifications_first_run_witness :
    (PollResult.mk 100 [(0, 1)] [] [] none).fetches.head? = some (0, 1) ∧
    (PollResult.mk 100 [(0, 1)] [] [] none).lastChecked = 100 :=
  getNotifications_first_run
    ⟨fun _ _ _ => .ok ([], ⟨1, 0⟩), fun _ _ _ => .error "absent",
     fun _ _ _ => none⟩
    100 "bot" 5 1 20 _ rfl

/-- What `feedGateway` answers for an in-range page. -/
theorem feedGateway_list (numPages : Nat) (notifAt : Nat → Notification)
    (getPR : String → String → Int → Except String PullRequest)
    (del : DeleteGateway) (since page perPage : Nat)
    (h1 : 1 ≤ page) (h2 : page ≤ numPages) :
    (feedGateway numPages notifAt getPR del).listNotifications since page perPage =
      .ok ([notifAt page],
           ⟨numPages, if page < numPages then page + 1 else 0⟩) := by
  simp [feedGateway, h1, h2]

/-- Helper for the pagination claim: starting at page `p` with `k` further
pages to go (`p + k = numPages`) and enough fuel, the run succeeds, fetches
exactly pages `p, p+1, ..., numPages`, evaluates the one pull request of
each page, and ends with no error. -/
theorem getNotifications_feed_aux (numPages : Nat) (notifAt : Nat → Notification)
    (getPR : String → String → Int → Except String PullRequest)
    (del : DeleteGateway) (now : Nat) (username : String) (perPage : Nat)
    (ids : Nat → Int) (dls : Nat → List DeleteCall)
    (hhandle : ∀ p, 1 ≤ p → p ≤ numPages →
      handleNotification (feedGateway numPages notifAt getPR del) username
        (notifAt p) = .ok ([ids p], dls p, none)) :
    ∀ k p fuel lc, 1 ≤ p → p + k = numPages → k + 1 ≤ fuel →
      ∃ r, getNotifications (feedGateway numPages notifAt getPR del) now
          username fuel p perPage lc = .ok r ∧
        r.evaluated = (List.range' p (k + 1)).map ids ∧
        r.fetches.map Prod.snd = List.range' p (k + 1) ∧
        r.error = none := by
  intro k
  induction k with
  | zero =>
    intro p fuel lc hp hpk hfuel
    obtain ⟨f, rfl⟩ : ∃ f, fuel = f + 1 := ⟨fuel - 1, by omega⟩
    have hple : p ≤ numPages := by omega
    have hh := hhandle p hp hple
    have hlt : ¬ p < numPages := by omega
    have hlist := feedGateway_list numPages notifAt getPR del lc p perPage hp hple
    refine ⟨⟨if lc = 0 then now else lc, [(lc, p)], [ids p], dls p, none⟩,
      ?_, by simp, by simp, rfl⟩
    simp [getNotifications, hlist, handleAll, hh, hlt]
  | succ k ih =>
    intro p fuel lc hp hpk hfuel
    obtain ⟨f, rfl⟩ : ∃ f, fuel = f + 1 := ⟨fuel - 1, by omega⟩
    have hplt : p < numPages := by omega
    have hh := hhandle p hp (by omega)
    have hlist := feedGateway_list numPages notifAt getPR del lc p perPage hp
      (by omega)
    obtain ⟨r', hr', hev, hfe, herr⟩ :=
      ih (p + 1) f (if lc = 0 then now else lc) (by omega) (by omega) (by omega)
    have hne : ¬(p = numPages ∨ p + 1 = 0) := by omega
    refine ⟨⟨r'.lastChecked, (lc, p) :: r'.fetches, ids p :: r'.evaluated,
      dls p ++ r'.deletes, r'.error⟩, ?_, ?_, ?_, ?_⟩
    · simp [getNotifications, hlist, handleAll, hh, hplt, hne, hr']
      intro hEq
      exact absurd hEq (by omega)
    · simp [List.range'_succ, hev]
    · simp [List.range'_succ, hfe]
    · exact herr

/-- C7: over a synthetic feed of `numPages` pages, each carrying exactly one
notification whose resolution and evaluation succeed, one run of
`getNotifications` starting at page 1 resolves and evaluates exactly
`numPages` pull requests, follows the next-page indicator through pages
1..numPages, and stops after the page that reports no further pages. -/
theorem getNotifications_paginates_feed (numPages : Nat)
    (notifAt : Nat → Notification)
    (getPR : String → String → Int → Except String PullRequest)
    (del : DeleteGateway) (now : Nat) (username : String)
    (perPage fuel lc : Nat) (ids : Nat → Int) (dls : Nat → List DeleteCall)
    (hN : 1 ≤ numPages) (hfuel : numPages ≤ fuel)
    (hhandle : ∀ p, 1 ≤ p → p ≤ numPages →
      handleNotification (feedGateway numPages notifAt getPR del) username
        (notifAt p) = .ok ([ids p], dls p, none)) :
    ∃ r, getNotifications (feedGateway numPages notifAt getPR del) now
        username fuel 1 perPage lc = .ok r ∧
      r.evaluated.length = numPages ∧
      r.evaluated = (List.range' 1 numPages).map ids ∧
      r.fetches.map Prod.snd = List.range' 1 numPages ∧
      r.error = none := by
  have heq : numPages - 1 + 1 = numPages := by omega
  obtain ⟨r, hr, hev, hfe, herr⟩ := getNotifications_feed_aux numPages notifAt
    getPR del now username perPage ids dls hhandle (numPages - 1) 1 fuel lc
    le_rfl (by omega) (by omega)
  rw [heq] at hev hfe
  refine ⟨r, hr, ?_, hev, hfe, herr⟩
  rw [hev]
  simp

/-- Witness for `getNotifications_paginates_feed`: a three-page feed whose
notifications all point at pull request 7 of repo "u/r"; the fetched pull
request is open, so evaluation succeeds with no deletion. -/
theorem getNotifications_paginates_feed_witness :
    ∃ r, getNotifications
        (feedGateway 3
          (fun _ => ⟨some ⟨some "PullRequest", some "u/7"⟩,
                     some ⟨some ⟨some "u"⟩, some "r", none⟩⟩)
          (fun _ _ _ => .ok ⟨some "open", some false, none, some 7⟩)
          (fun _ _ _ => none))
        100 "bot" 5 1 20 0 = .ok r ∧
      r.evaluated.length = 3 ∧
      r.evaluated = (List.range' 1 3).map (fun _ => (7 : Int)) ∧
      r.fetches.map Prod.snd = List.range' 1 3 ∧
      r.error = none :=
  getNotifications_paginates_feed 3
    (fun _ => ⟨some ⟨some "PullRequest", some "u/7"⟩,
               some ⟨some ⟨some "u"⟩, some "r", none⟩⟩)
    (fun _ _ _ => .ok ⟨some "open", some false, none, some 7⟩)
    (fun _ _ _ => none) 100 "bot" 20 5 0 (fun _ => (7 : Int)) (fun _ => [])
    (by decide) (by decide) (fun p _ _ => rfl)

/-- Helper: if every notification in `ns1` is handled without error and
`nbad` fails with error `e`, then the notification loop over
`ns1 ++ nbad :: ns2` stops at `nbad` with error `e`; the notifications of
`ns2` are never touched (the result does not depend on them). -/
theorem handleAll_append_error (g : PollGateway) (username : String)
    (nbad : Notification) (evb : List Int) (dlb : List DeleteCall) (e : String)
    (hbad : handleNotification g username nbad = .ok (evb, dlb, some e)) :
    ∀ ns1 ns2 ev1 dl1, handleAll g username ns1 = .ok (ev1, dl1, none) →
      handleAll g username (ns1 ++ nbad :: ns2) =
        .ok (ev1 ++ evb, dl1 ++ dlb, some e) := by
  intro ns1
  induction ns1 with
  | nil =>
    intro ns2 ev1 dl1 h
    simp only [handleAll] at h
    cases h
    simp [handleAll, hbad]
  | cons n ns ih =>
    intro ns2 ev1 dl1 h
    simp only [handleAll] at h
    revert h
    cases hn : handleNotification g username n with
    | panic => intro h; simp at h
    | diverge => intro h; simp at h
    | ok triple =>
      obtain ⟨ev, dl, r⟩ := triple
      cases r with
      | some e0 => intro h; simp at h
      | none =>
        cases hrest : handleAll g username ns with
        | panic => intro h; simp at h
        | diverge => intro h; simp at h
        | ok triple2 =>
          obtain ⟨ev2, dl2, r2⟩ := triple2
          intro h
          simp only [GoRes.ok.injEq, Prod.mk.injEq] at h
          obtain ⟨hev1, hdl1, hr2⟩ := h
          subst hev1; subst hdl1; subst hr2
          simp only [List.cons_append, handleAll, hn, hrest, List.append_eq]
          rw [ih ns2 ev2 dl2 hrest]
          simp [List.append_assoc]

/-- C8: if, on the first page of a tick, the notifications are
`ns1 ++ nbad :: ns2` where all of `ns1` are handled cleanly and resolving or
evaluating `nbad` fails with error `e`, then the poll cycle aborts: the only
fetch is page 1 (no further pages, whatever the response's pagination
indicators say), the notifications after `nbad` are not processed, the error
is returned to `notifier`, which logs it as a warning — the tick completes
normally rather than terminating. -/
theorem getNotifications_error_aborts (g : PollGateway) (now : Nat)
    (username : String) (fuel page perPage lc : Nat)
    (ns1 ns2 : List Notification) (nbad : Notification) (resp : ListResponse)
    (ev1 evb : List Int) (dl1 dlb : List DeleteCall) (e : String)
    (hlist : g.listNotifications lc page perPage = .ok (ns1 ++ nbad :: ns2, resp))
    (h1 : handleAll g username ns1 = .ok (ev1, dl1, none))
    (hbad : handleNotification g username nbad = .ok (evb, dlb, some e)) :
    getNotifications g now username (fuel + 1) page perPage lc =
      .ok ⟨if lc = 0 then now else lc, [(lc, page)], ev1 ++ evb, dl1 ++ dlb,
           some e⟩ ∧
    (page = 1 → perPage = 20 →
      notifierTick g now username (fuel + 1) lc =
        .ok ⟨if lc = 0 then now else lc, some e⟩) := by
  have hall := handleAll_append_error g username nbad evb dlb e hbad ns1 ns2
    ev1 dl1 h1
  constructor
  · simp [getNotifications, hlist, hall]
  · rintro rfl rfl
    simp [notifierTick, getNotifications, hlist, hall]

/-- Witness for `getNotifications_error_aborts`: a feed whose page 1 holds a
clean notification followed by one whose subject URL ends in "/99", where
fetching pull request 99 returns a "not found" error; the page-2 pointer is
never followed. -/
theorem getNotifications_error_aborts_witness :
    getNotifications
      ⟨fun _ _ _ =>
          .ok ([⟨some ⟨some "Issue", some "u/3"⟩, none⟩,
                ⟨some ⟨some "PullRequest", some "u/99"⟩,
                 some ⟨some ⟨some "u"⟩, some "r", none⟩⟩,
                ⟨some ⟨some "PullRequest", some "u/5"⟩, none⟩], ⟨7, 2⟩),
       fun _ _ _ => .error "GET: 404 Not Found", fun _ _ _ => none⟩
      100 "bot" 4 1 20 0 =
      .ok ⟨100, [(0, 1)], [], [], some "GET: 404 Not Found"⟩ ∧
    notifierTick
      ⟨fun _ _ _ =>
          .ok ([⟨some ⟨some "Issue", some "u/3"⟩, none⟩,
                ⟨some ⟨some "PullRequest", some "u/99"⟩,
                 some ⟨some ⟨some "u"⟩, some "r", none⟩⟩,
                ⟨some ⟨some "PullRequest", some "u/5"⟩, none⟩], ⟨7, 2⟩),
       fun _ _ _ => .error "GET: 404 Not Found", fun _ _ _ => none⟩
      100 "bot" 4 0 = .ok ⟨100, some "GET: 404 Not Found"⟩ := by
  have h := getNotifications_error_aborts
    ⟨fun _ _ _ =>
        .ok ([⟨some ⟨some "Issue", some "u/3"⟩, none⟩,
              ⟨some ⟨some "PullRequest", some "u/99"⟩,
               some ⟨some ⟨some "u"⟩, some "r", none⟩⟩,
              ⟨some ⟨some "PullRequest", some "u/5"⟩, none⟩], ⟨7, 2⟩),
     fun _ _ _ => .error "GET: 404 Not Found", fun _ _ _ => none⟩
    100 "bot" 3 1 20 0 [⟨some ⟨some "Issue", some "u/3"⟩, none⟩]
    [⟨some ⟨some "PullRequest", some "u/5"⟩, none⟩]
    ⟨some ⟨some "PullRequest", some "u/99"⟩,
     some ⟨some ⟨some "u"⟩, some "r", none⟩⟩
    ⟨7, 2⟩ [] [] [] [] "GET: 404 Not Found" rfl rfl rfl
  exact ⟨h.1.trans (by decide), (h.2 rfl rfl).trans (by decide)⟩

/-- C9: the webhook handler hits `logrus.Fatal` (process termination, not a
per-request error response) when the body fails to read or fails to decode;
a decoded event reaches `closePR` exactly when its pull request is present
and its action string is "closed" (then the handler's deletion calls are
`closePR`'s); with a present pull request and a different action it issues
no deletion call and logs the informational skip message; with no pull
request it logs the non-PR skip message. -/
theorem buildHandler_behaviour (decode : String → Except String Event)
    (del : DeleteGateway) (username : String) :
    (∀ e, buildHandler decode del username (.error e) = ([], .fatal)) ∧
    (∀ b e, decode b = .error e →
      buildHandler decode del username (.ok b) = ([], .fatal)) ∧
    (∀ b evt pr, decode b = .ok evt → evt.pullRequest = some pr →
      evt.action = "closed" →
      (buildHandler decode del username (.ok b)).1 =
        (closePR del username pr).1) ∧
    (∀ b evt, decode b = .ok evt →
      (evt.pullRequest = none ∨ evt.action ≠ "closed") →
      (buildHandler decode del username (.ok b)).1 = []) ∧
    (∀ b evt pr n rp fn, decode b = .ok evt → evt.pullRequest = some pr →
      evt.action ≠ "closed" → pr.number = some n → evt.repository = some rp →
      rp.fullName = some fn →
      buildHandler decode del username (.ok b) =
        ([], .ok (.skipNotClosed n fn evt.action))) ∧
    (∀ b evt, decode b = .ok evt → evt.pullRequest = none →
      buildHandler decode del username (.ok b) = ([], .ok .skipNonPR)) := by
  refine ⟨fun e => rfl, fun b e hb => ?_, fun b evt pr hb hpr hact => ?_,
    fun b evt hb hskip => ?_, fun b evt pr n rp fn hb hpr hact hn hrp hfn => ?_,
    fun b evt hb hpr => ?_⟩
  · simp [buildHandler, hb]
  · simp only [buildHandler, hb, hpr, hact, if_pos]
    rcases hc : closePR del username pr with ⟨calls, out⟩
    rcases out with _ | e0
    · rfl
    · rcases e0 with _ | e1
      · rfl
      · cases hn : pr.number with
        | none => simp [hn]
        | some n =>
          cases hrp : evt.repository with
          | none => simp [hn, hrp]
          | some rp => cases hfn : rp.fullName <;> simp [hn, hrp, hfn]
  · rcases hskip with hpr | hact
    · simp [buildHandler, hb, hpr]
    · rcases hpr : evt.pullRequest with _ | pr
      · simp [buildHandler, hb, hpr]
      · simp only [buildHandler, hb, hpr, hact, if_neg]
        cases hn : pr.number with
        | none => simp [hn]
        | some n =>
          cases hrp : evt.repository with
          | none => simp [hn, hrp]
          | some rp => cases hfn : rp.fullName <;> simp [hn, hrp, hfn]
  · simp [buildHandler, hb, hpr, hact, hn, hrp, hfn]
  · simp [buildHandler, hb, hpr]

/-- Witness for `buildHandler_behaviour` with a concrete decoder mapping
"closed-pr" to a closed-action event, "open-pr" to an "opened"-action event,
"no-pr" to an event with no pull request, and anything else to a decode
error; the concrete pull request is merged and self-owned. -/
theorem buildHandler_behaviour_witness :
    (buildHandler
        (fun b =>
          if b = "closed-pr" then
            .ok ⟨some ⟨some "closed", some true,
                      some ⟨some "feature-x",
                            some ⟨some ⟨some "bot"⟩, some "repo1", none⟩⟩,
                      some 42⟩,
                 some ⟨none, none, some "bot/repo1"⟩, 42, "closed"⟩
          else if b = "open-pr" then
            .ok ⟨some ⟨some "open", some false, none, some 42⟩,
                 some ⟨none, none, some "bot/repo1"⟩, 42, "opened"⟩
          else if b = "no-pr" then
            .ok ⟨none, some ⟨none, none, some "bot/repo1"⟩, 3, "created"⟩
          else .error "unmarshal failed")
        (fun _ _ _ => none) "bot" (.error "read failed") = ([], .fatal)) ∧
    (buildHandler
        (fun b =>
          if b = "closed-pr" then
            .ok ⟨some ⟨some "closed", some true,
                      some ⟨some "feature-x",
                            some ⟨some ⟨some "bot"⟩, some "repo1", none⟩⟩,
                      some 42⟩,
                 some ⟨none, none, some "bot/repo1"⟩, 42, "closed"⟩
          else if b = "open-pr" then
            .ok ⟨some ⟨some "open", some false, none, some 42⟩,
                 some ⟨none, none, some "bot/repo1"⟩, 42, "opened"⟩
          else if b = "no-pr" then
            .ok ⟨none, some ⟨none, none, some "bot/repo1"⟩, 3, "created"⟩
          else .error "unmarshal failed")
        (fun _ _ _ => none) "bot" (.ok "junk body") = ([], .fatal)) ∧
    ((buildHandler
        (fun b =>
          if b = "closed-pr" then
            .ok ⟨some ⟨some "closed", some true,
                      some ⟨some "feature-x",
                            some ⟨some ⟨some "bot"⟩, some "repo1", none⟩⟩,
                      some 42⟩,
                 some ⟨none, none, some "bot/repo1"⟩, 42, "closed"⟩
          else if b = "open-pr" then
            .ok ⟨some ⟨some "open", some false, none, some 42⟩,
                 some ⟨none, none, some "bot/repo1"⟩, 42, "opened"⟩
          else if b = "no-pr" then
            .ok ⟨none, some ⟨none, none, some "bot/repo1"⟩, 3, "created"⟩
          else .error "unmarshal failed")
        (fun _ _ _ => none) "bot" (.ok "closed-pr")).1 =
      (closePR (fun _ _ _ => none) "bot"
        ⟨some "closed", some true,
         some ⟨some "feature-x", some ⟨some ⟨some "bot"⟩, some "repo1", none⟩⟩,
         some 42⟩).1) ∧
    (buildHandler
        (fun b =>
          if b = "closed-pr" then
            .ok ⟨some ⟨some "closed", some true,
                      some ⟨some "feature-x",
                            some ⟨some ⟨some "bot"⟩, some "repo1", none⟩⟩,
                      some 42⟩,
                 some ⟨none, none, some "bot/repo1"⟩, 42, "closed"⟩
          else if b = "open-pr" then
            .ok ⟨some ⟨some "open", some false, none, some 42⟩,
                 some ⟨none, none, some "bot/repo1"⟩, 42, "opened"⟩
          else if b = "no-pr" then
            .ok ⟨none, some ⟨none, none, some "bot/repo1"⟩, 3, "created"⟩
          else .error "unmarshal failed")
        (fun _ _ _ => none) "bot" (.ok "open-pr") =
      ([], .ok (.skipNotClosed 42 "bot/repo1" "opened"))) ∧
    (buildHandler
        (fun b =>
          if b = "closed-pr" then
            .ok ⟨some ⟨some "closed", some true,
                      some ⟨some "feature-x",
                            some ⟨some ⟨some "bot"⟩, some "repo1", none⟩⟩,
                      some 42⟩,
                 some ⟨none, none, some "bot/repo1"⟩, 42, "closed"⟩
          else if b = "open-pr" then
            .ok ⟨some ⟨some "open", some false, none, some 42⟩,
                 some ⟨none, none, some "bot/repo1"⟩, 42, "opened"⟩
          else if b = "no-pr" then
            .ok ⟨none, some ⟨none, none, some "bot/repo1"⟩, 3, "created"⟩
          else .error "unmarshal failed")
        (fun _ _ _ => none) "bot" (.ok "no-pr") = ([], .ok .skipNonPR)) := by
  have h := buildHandler_behaviour
    (fun b =>
      if b = "closed-pr" then
        .ok ⟨some ⟨some "closed", some true,
                  some ⟨some "feature-x",
                        some ⟨some ⟨some "bot"⟩, some "repo1", none⟩⟩,
                  some 42⟩,
             some ⟨none, none, some "bot/repo1"⟩, 42, "closed"⟩
      else if b = "open-pr" then
        .ok ⟨some ⟨some "open", some false, none, some 42⟩,
             some ⟨none, none, some "bot/repo1"⟩, 42, "opened"⟩
      else if b = "no-pr" then
        .ok ⟨none, some ⟨none, none, some "bot/repo1"⟩, 3, "created"⟩
      else .error "unmarshal failed")
    (fun _ _ _ => none) "bot"
  refine ⟨h.1 "read failed", h.2.1 "junk body" "unmarshal failed" rfl,
    h.2.2.1 "closed-pr" _ _ rfl rfl rfl,
    h.2.2.2.2.1 "open-pr" _ _ 42 _ "bot/repo1" rfl rfl (by decide)
      rfl rfl rfl,
    h.2.2.2.2.2 "no-pr" _ rfl rfl⟩

end Ghb0t
